import Mathlib

/-!
Shallow embedding of the cached, rate-limited Notion query layer
(`src/core/database.py`, `src/core/notion_api.py`, `src/core/config.py`)
together with theorems checking the specification's claims against it.

Conventions of the embedding:
* Python `datetime` instants are modelled as `Int` time units; `timedelta`
  arithmetic becomes integer arithmetic.
* JSON-serializable Python values (`json.dumps` / `json.loads` round-trips
  through the SQLite `value` column) are modelled by `JValue`.
* `None`-able Python arguments are `Option _`; Python truthiness tests
  (`if max_age:`, `if ttl:`, `if not self.notion_token:`, `if cached:`)
  are modelled by explicit truthiness functions.
* Strings fed to `hashlib.md5(key_str.encode())` are ASCII in every use
  here, so `encode()` is modelled as the list of code points.
-/

namespace NotionTool

/-! ### MD5 (`hashlib.md5(...).hexdigest()` as used by `LocalCache.generate_key`)

Words are `Nat` reduced mod 2^32. -/

/-- Reduce a natural number to a 32-bit word. -/
def w32 (n : Nat) : Nat := n % 4294967296

/-- 32-bit modular addition. -/
def wadd (a b : Nat) : Nat := w32 (a + b)

/-- Bitwise complement on 32-bit words. -/
def wnot (a : Nat) : Nat := Nat.xor a 4294967295

/-- Left-rotate a 32-bit word by `s` places. -/
def rotl (a s : Nat) : Nat := w32 (Nat.shiftLeft a s) ||| Nat.shiftRight a (32 - s)

/-- The 64 MD5 sine-derived round constants (RFC 1321). -/
def md5K : List Nat :=
  [0xd76aa478, 0xe8c7b756, 0x242070db, 0xc1bdceee,
   0xf57c0faf, 0x4787c62a, 0xa8304613, 0xfd469501,
   0x698098d8, 0x8b44f7af, 0xffff5bb1, 0x895cd7be,
   0x6b901122, 0xfd987193, 0xa679438e, 0x49b40821,
   0xf61e2562, 0xc040b340, 0x265e5a51, 0xe9b6c7aa,
   0xd62f105d, 0x02441453, 0xd8a1e681, 0xe7d3fbc8,
   0x21e1cde6, 0xc33707d6, 0xf4d50d87, 0x455a14ed,
   0xa9e3e905, 0xfcefa3f8, 0x676f02d9, 0x8d2a4c8a,
   0xfffa3942, 0x8771f681, 0x6d9d6122, 0xfde5380c,
   0xa4beea44, 0x4bdecfa9, 0xf6bb4b60, 0xbebfbc70,
   0x289b7ec6, 0xeaa127fa, 0xd4ef3085, 0x04881d05,
   0xd9d4d039, 0xe6db99e5, 0x1fa27cf8, 0xc4ac5665,
   0xf4292244, 0x432aff97, 0xab9423a7, 0xfc93a039,
   0x655b59c3, 0x8f0ccc92, 0xffeff47d, 0x85845dd1,
   0x6fa87e4f, 0xfe2ce6e0, 0xa3014314, 0x4e0811a1,
   0xf7537e82, 0xbd3af235, 0x2ad7d2bb, 0xeb86d391]

/-- The 64 MD5 per-round left-rotation amounts. -/
def md5S : List Nat :=
  [7, 12, 17, 22, 7, 12, 17, 22, 7, 12, 17, 22, 7, 12, 17, 22,
   5, 9, 14, 20, 5, 9, 14, 20, 5, 9, 14, 20, 5, 9, 14, 20,
   4, 11, 16, 23, 4, 11, 16, 23, 4, 11, 16, 23, 4, 11, 16, 23,
   6, 10, 15, 21, 6, 10, 15, 21, 6, 10, 15, 21, 6, 10, 15, 21]

/-- Little-endian byte decomposition: `k` bytes of `n`. -/
def leBytes (k n : Nat) : List Nat :=
  match k with
  | 0 => []
  | k + 1 => n % 256 :: leBytes k (n / 256)

/-- MD5 padding: append `0x80`, zero-fill to 56 mod 64, append the 64-bit
little-endian bit length. -/
def md5Pad (msg : List Nat) : List Nat :=
  let len := msg.length
  let zeros := (119 - len % 64) % 64
  msg ++ [128] ++ List.replicate zeros 0 ++ leBytes 8 ((8 * len) % 18446744073709551616)

/-- Group bytes into little-endian 32-bit words. -/
def toWords : List Nat → List Nat
  | b0 :: b1 :: b2 :: b3 :: rest =>
      (b0 + 256 * b1 + 65536 * b2 + 16777216 * b3) :: toWords rest
  | _ => []

/-- One MD5 round `i` (0-indexed) on state `(a, b, c, d)` with message words `M`. -/
def md5Step (M : List Nat) (st : Nat × Nat × Nat × Nat) (i : Nat) : Nat × Nat × Nat × Nat :=
  let (a, b, c, d) := st
  let fg : Nat × Nat :=
    if i < 16 then ((b &&& c) ||| (wnot b &&& d), i)
    else if i < 32 then ((d &&& b) ||| (wnot d &&& c), (5 * i + 1) % 16)
    else if i < 48 then (Nat.xor (Nat.xor b c) d, (3 * i + 5) % 16)
    else (Nat.xor c (b ||| wnot d), (7 * i) % 16)
  let f := wadd (wadd (wadd fg.1 a) (md5K.getD i 0)) (M.getD fg.2 0)
  (d, wadd b (rotl f (md5S.getD i 0)), b, c)

/-- Process one 16-word chunk through the 64 MD5 rounds and add the result
to the incoming state. -/
def md5Chunk (st : Nat × Nat × Nat × Nat) (M : List Nat) : Nat × Nat × Nat × Nat :=
  let (a0, b0, c0, d0) := st
  let (a, b, c, d) := (List.range 64).foldl (md5Step M) (a0, b0, c0, d0)
  (wadd a0 a, wadd b0 b, wadd c0 c, wadd d0 d)

/-- Split a byte list into 64-byte blocks; structural recursion on a fuel
argument so the kernel can evaluate it (the fuel `l.length` always
suffices because each step consumes a nonempty list). -/
def chunks64Go : Nat → List Nat → List (List Nat)
  | 0, _ => []
  | _, [] => []
  | fuel + 1, x :: xs => (x :: xs).take 64 :: chunks64Go fuel ((x :: xs).drop 64)

/-- Split a byte list into 64-byte blocks. -/
def chunks64 (l : List Nat) : List (List Nat) := chunks64Go l.length l

/-- Lower-case hex digit for a nibble. -/
def hexDigit (n : Nat) : Char :=
  if n < 10 then Char.ofNat (48 + n) else Char.ofNat (87 + n)

/-- Two lower-case hex digits for a byte. -/
def byteHex (b : Nat) : List Char := [hexDigit (b / 16), hexDigit (b % 16)]

/-- Hex rendering of one 32-bit word, least significant byte first
(matching `hexdigest`). -/
def wordHexLE (w : Nat) : List Char :=
  (leBytes 4 w).flatMap byteHex

/-- MD5 digest of a byte list as a 32-character lower-case hex string. -/
def md5Bytes (msg : List Nat) : String :=
  let blocks := (chunks64 (md5Pad msg)).map toWords
  let st := blocks.foldl md5Chunk (0x67452301, 0xefcdab89, 0x98badcfe, 0x10325476)
  String.mk (wordHexLE st.1 ++ wordHexLE st.2.1 ++ wordHexLE st.2.2.1 ++ wordHexLE st.2.2.2)

/-- MD5 hexdigest of an ASCII string (models `hashlib.md5(s.encode()).hexdigest()`). -/
def md5 (s : String) : String :=
  md5Bytes (s.data.map Char.toNat)

/-! ### Small Python-semantics helpers -/

/-- JSON values: the image of `json.dumps` / `json.loads` on the cached
Python payloads (lists, dicts, strings, ints, bools, None). -/
inductive JValue where
  | null : JValue
  | boolean : Bool → JValue
  | num : Int → JValue
  | str : String → JValue
  | arr : List JValue → JValue
  | obj : List (String × JValue) → JValue

/-- Python truthiness of a JSON value (`if cached:`): None, False, 0, empty
string, empty list and empty dict are falsy. -/
def JValue.truthy : JValue → Bool
  | .null => false
  | .boolean b => b
  | .num n => n != 0
  | .str s => s != ""
  | .arr xs => !xs.isEmpty
  | .obj fs => !fs.isEmpty

/-- Truthiness of an optional value as Python sees a `cache.get` result:
`None` (absent) is falsy, otherwise the value's own truthiness decides. -/
def truthyOpt : Option JValue → Bool
  | some v => v.truthy
  | none => false

/-- Truthiness of an optional integer argument (`if max_age:` / `if ttl:`):
`None` and `0` are falsy. -/
def pyTruthyInt : Option Int → Bool
  | some n => n != 0
  | none => false

/-- Truthiness of an optional string (`if not self.notion_token:`):
`None` and the empty string are falsy. -/
def pyTruthyStr : Option String → Bool
  | some s => s != ""
  | none => false

/-- Python `None` coming back from a fall-through function return is
serialized by `json.dumps` as JSON null. -/
def pyOptVal : Option JValue → JValue
  | some v => v
  | none => JValue.null

/-- ASCII lower-casing of one character (SQLite `LIKE` folds ASCII case;
also used for `str.lower()` in `Config`). -/
def asciiLower (c : Char) : Char :=
  if 65 ≤ c.toNat ∧ c.toNat ≤ 90 then Char.ofNat (c.toNat + 32) else c

/-- ASCII `str.lower()`. -/
def strLower (s : String) : String := String.mk (s.data.map asciiLower)

/-- Does string `s` begin with the characters of `p`? (Used to express the
spec's "discoverable common prefix" of query keys.) -/
def charsBegin : List Char → List Char → Bool
  | [], _ => true
  | _ :: _, [] => false
  | p :: ps, c :: cs => p == c && charsBegin ps cs

/-- Does string `s` begin with `p`? -/
def strBegins (p s : String) : Bool := charsBegin p.data s.data

/-- SQL `LIKE` matcher: `%` matches any run, `_` any single character,
anything else matches itself up to ASCII case (SQLite default).
Structural recursion on a fuel argument for kernel evaluation; each step
shortens pattern or subject, so `pat.length + s.length + 1` fuel suffices. -/
def likeMatchGo : Nat → List Char → List Char → Bool
  | 0, _, _ => false
  | _ + 1, [], s => s.isEmpty
  | fuel + 1, p :: ps, s =>
    if p = '%' then
      likeMatchGo fuel ps s ||
        (match s with
         | [] => false
         | _ :: cs => likeMatchGo fuel (p :: ps) cs)
    else
      match s with
      | [] => false
      | c :: cs =>
        if p = '_' then likeMatchGo fuel ps cs
        else asciiLower p == asciiLower c && likeMatchGo fuel ps cs

/-- SQL `LIKE pattern` applied to a string (as in
`DELETE FROM cache WHERE key LIKE ?`). -/
def likeMatch (pat s : String) : Bool :=
  likeMatchGo (pat.data.length + s.data.length + 1) pat.data s.data

/-! ### `LocalCache` (`src/core/database.py`)

The `cache` SQLite table keyed by its `key` primary-key column is an
association list with unique keys; `datetime.now()` is the explicit `now`
argument. -/

/-- One row of the `cache` table. -/
structure CacheEntry where
  value : JValue
  createdAt : Int
  expiresAt : Option Int

/-- The `cache` table: association list keyed by the primary-key string. -/
abbrev Cache := List (String × CacheEntry)

/-- Delete the row with exactly this key (`DELETE FROM cache WHERE key = ?`). -/
def eraseKey (c : Cache) (key : String) : Cache :=
  c.filter (fun kv => kv.1 != key)

/-- LocalCache.generate_key: join the `str()` of the non-None arguments
with `":"` and MD5-hash the result. Arguments are passed as their Python
`str()` rendering, or `none` for Python `None`. -/
def generate_key (args : List (Option String)) : String :=
  md5 (String.intercalate ":" (args.filterMap id))

/-- LocalCache.get: when `max_age` is truthy, select the row only if
`created_at > now - max_age`; otherwise select by key alone. The stored
JSON text decodes back to the stored value. Note the source never
consults `expires_at` here. -/
def cacheGet (c : Cache) (now : Int) (key : String) (max_age : Option Int) : Option JValue :=
  if pyTruthyInt max_age then
    match c.lookup key with
    | some e => if now - max_age.getD 0 < e.createdAt then some e.value else none
    | none => none
  else
    (c.lookup key).map CacheEntry.value

/-- LocalCache.set: `INSERT OR REPLACE` of `(key, value, now, expires_at)`
where `expires_at = now + ttl` when `ttl` is truthy, else NULL. -/
def cacheSet (c : Cache) (now : Int) (key : String) (value : JValue) (ttl : Option Int) : Cache :=
  let expiresAt := if pyTruthyInt ttl then some (now + ttl.getD 0) else none
  (key, ⟨value, now, expiresAt⟩) :: eraseKey c key

/-- LocalCache.invalidate: remove one key. -/
def invalidate (c : Cache) (key : String) : Cache := eraseKey c key

/-- LocalCache.invalidate_pattern: `DELETE FROM cache WHERE key LIKE ?`. -/
def invalidate_pattern (c : Cache) (pat : String) : Cache :=
  c.filter (fun kv => !likeMatch pat kv.1)

/-- LocalCache.clear: delete every row. -/
def clearCache (_ : Cache) : Cache := []

/-- LocalCache.cleanup_expired: delete rows whose `expires_at` is set and
has passed. -/
def cleanup_expired (c : Cache) (now : Int) : Cache :=
  c.filter (fun kv =>
    match kv.2.expiresAt with
    | none => true
    | some e => !decide (e < now))

/-! ### `NotionAPI._execute_with_retry` (`src/core/notion_api.py`)

The exceptions the retry loop distinguishes, and an event trace recording
throttle acquisitions, call attempts and sleeps. -/

/-- Exceptions reaching the retry loop: `APIResponseError` carrying its
`code`, `RequestTimeoutError`, and any other exception (uncaught by the
loop's handlers). -/
inductive PyExc where
  | apiResponseError : String → PyExc
  | requestTimeoutError : PyExc
  | otherExc : String → PyExc
deriving DecidableEq

/-- Fatal (non-retryable) errors per the spec's taxonomy: any
`APIResponseError` other than `rate_limited`, or any non-timeout
exception. -/
def fatalError : PyExc → Bool
  | .apiResponseError code => code != "rate_limited"
  | .requestTimeoutError => false
  | .otherExc _ => true

/-- Observable events of the access layer. -/
inductive Event where
  | acquireThrottle : Event
  | callAttempt : Nat → Event
  | sleepFor : Nat → Event
  | cacheLookup : String → Event
  | cacheHit : String → Event
  | cacheStore : String → Event
  | invalidateKey : String → Event
  | invalidateLike : String → Event
  | remotePage : Nat → Event
  | interItemDelay : Event
deriving DecidableEq

/-- Result of `_execute_with_retry`: the event trace and either the value
returned, the exception raised, or `ok none` for Python's implicit `None`
return when the loop body never runs (`max_retries = 0`). -/
structure RunResult (α : Type) where
  events : List Event
  outcome : Except PyExc (Option α)

/-- The body of the `for attempt in range(max_retries)` loop, with
`remaining + attempt = max_retries` kept as the structural recursion
measure (`remaining` counts the current iteration, so Python's
`attempt < max_retries - 1` is `0 < remaining` after peeling one).
Each iteration acquires the throttle (`rate_limiter.wait()`), calls
`func`, and on failure either sleeps and retries (`rate_limited`: sleep
`2 ** attempt`; timeout: sleep 1) or re-raises. Exceptions matching
neither handler propagate at once. -/
def retryGo (call : Nat → Except PyExc α) : Nat → Nat → RunResult α
  | _, 0 => ⟨[], Except.ok none⟩
  | attempt, remaining + 1 =>
    let pre := [Event.acquireThrottle, Event.callAttempt attempt]
    match call attempt with
    | Except.ok v => ⟨pre, Except.ok (some v)⟩
    | Except.error (PyExc.apiResponseError code) =>
      if code = "rate_limited" ∧ 0 < remaining then
        let r := retryGo call (attempt + 1) remaining
        ⟨pre ++ [Event.sleepFor (2 ^ attempt)] ++ r.events, r.outcome⟩
      else ⟨pre, Except.error (PyExc.apiResponseError code)⟩
    | Except.error PyExc.requestTimeoutError =>
      if 0 < remaining then
        let r := retryGo call (attempt + 1) remaining
        ⟨pre ++ [Event.sleepFor 1] ++ r.events, r.outcome⟩
      else ⟨pre, Except.error PyExc.requestTimeoutError⟩
    | Except.error (PyExc.otherExc m) => ⟨pre, Except.error (PyExc.otherExc m)⟩

/-- NotionAPI._execute_with_retry: run the loop from attempt 0 with
`max_retries` iterations available. The remote call is modelled as a
function from the attempt index to its outcome. -/
def execute_with_retry (call : Nat → Except PyExc α) (max_retries : Nat) : RunResult α :=
  retryGo call 0 max_retries

/-! ### `Config` (`src/core/config.py`) -/

/-- The configuration fields the access layer consults. -/
structure Config where
  notion_token : String
  database_id : String
  cache_enabled : Bool
  cache_db_path : String
deriving DecidableEq

/-- Config.__init__ on an environment (`os.getenv`): missing or empty
`NOTION_TOKEN` / `DATABASE_ID` raise `ValueError`;
`cache_enabled = os.getenv("CACHE_ENABLED", "true").lower() == "true"`. -/
def mkConfig (env : String → Option String) : Except String Config :=
  let tok := env "NOTION_TOKEN"
  let dbid := env "DATABASE_ID"
  if !pyTruthyStr tok then
    Except.error "NOTION_TOKEN not found in environment variables"
  else if !pyTruthyStr dbid then
    Except.error "DATABASE_ID not found in environment variables"
  else
    Except.ok
      { notion_token := tok.getD ""
        database_id := dbid.getD ""
        cache_enabled := strLower ((env "CACHE_ENABLED").getD "true") == "true"
        cache_db_path := (env "CACHE_DB_PATH").getD ".notion_cache.db" }

/-! ### `NotionAPI` query façade (`src/core/notion_api.py`)

The remote collaborator for a paginated query is the finite sequence of
page responses it will return, in order; each page request goes through
`_execute_with_retry` and is modelled here as a successful remote call
recorded as a `remotePage` event. -/

/-- One response of `client.databases.query`. -/
structure Page where
  results : List JValue
  has_more : Bool
  next_cursor : Option String

/-- The `while has_more` pagination loop: flatten page results in order and
count the remote calls made. The loop always issues at least one call and
stops when a response reports `has_more = False` (the source trusts this
signal; the model's remote produces the listed responses). -/
def paginate : List Page → List JValue × Nat
  | [] => ([], 0)
  | p :: rest =>
    if p.has_more then
      let r := paginate rest
      (p.results ++ r.1, r.2 + 1)
    else (p.results, 1)

/-- Result of a façade read: the returned value, the cache afterwards, and
the event trace. -/
structure ReadResult where
  value : JValue
  cache : Cache
  events : List Event

/-- NotionAPI.query_database: resolve `db_id` via Python
`database_id or self.config.database_id`; when `use_cache`, compute the
cache key from `("query", db_id, filter_dict, sorts)`, return a truthy
fresh cached value, otherwise paginate the remote and store the flattened
results with no ttl. The configuration is consulted only for the default
database id — exactly as in the source. `filterRepr` / `sortsRepr` are
the Python `str()` renderings of `filter_dict` / `sorts` (or `none`). -/
def query_database (cache : Cache) (now : Int) (cfg : Config)
    (database_id : Option String) (filterRepr sortsRepr : Option String)
    (use_cache : Bool) (cache_ttl : Int) (pages : List Page) : ReadResult :=
  let db_id := if pyTruthyStr database_id then database_id.getD "" else cfg.database_id
  if use_cache then
    let cache_key := generate_key [some "query", some db_id, filterRepr, sortsRepr]
    let cached := cacheGet cache now cache_key (some cache_ttl)
    if truthyOpt cached then
      ⟨pyOptVal cached, cache, [Event.cacheLookup cache_key, Event.cacheHit cache_key]⟩
    else
      let pr := paginate pages
      let cache2 := cacheSet cache now cache_key (JValue.arr pr.1) none
      ⟨JValue.arr pr.1, cache2,
        Event.cacheLookup cache_key :: (List.range pr.2).map Event.remotePage
          ++ [Event.cacheStore cache_key]⟩
  else
    let pr := paginate pages
    ⟨JValue.arr pr.1, cache, (List.range pr.2).map Event.remotePage⟩

/-- NotionAPI.get_page: cache key from `("page", page_id)`, `cache.get`
with no `max_age`, truthy hit returned as is; otherwise one retrying call
(`max_retries` default 3), whose failure propagates and whose success is
stored with no ttl. -/
def get_page (cache : Cache) (now : Int) (page_id : String) (use_cache : Bool)
    (call : Nat → Except PyExc JValue) : Except PyExc ReadResult :=
  if use_cache then
    let cache_key := generate_key [some "page", some page_id]
    let cached := cacheGet cache now cache_key none
    if truthyOpt cached then
      Except.ok ⟨pyOptVal cached, cache, [Event.cacheLookup cache_key, Event.cacheHit cache_key]⟩
    else
      let r := execute_with_retry call 3
      match r.outcome with
      | Except.error e => Except.error e
      | Except.ok opt =>
        Except.ok ⟨pyOptVal opt, cacheSet cache now cache_key (pyOptVal opt) none,
          Event.cacheLookup cache_key :: r.events ++ [Event.cacheStore cache_key]⟩
  else
    let r := execute_with_retry call 3
    match r.outcome with
    | Except.error e => Except.error e
    | Except.ok opt => Except.ok ⟨pyOptVal opt, cache, r.events⟩

/-- Result of a façade write. -/
structure WriteResult where
  res : Except PyExc (Option JValue)
  cache : Cache
  events : List Event

/-- NotionAPI.update_page: one retrying call; on success invalidate the
literal key `"page:" ++ page_id`, then `invalidate_pattern "query:*"`,
and return the remote result; on failure the exception propagates with no
invalidation. -/
def update_page (cache : Cache) (page_id : String)
    (call : Nat → Except PyExc JValue) : WriteResult :=
  let r := execute_with_retry call 3
  match r.outcome with
  | Except.error e => ⟨Except.error e, cache, r.events⟩
  | Except.ok opt =>
    let c1 := invalidate cache ("page:" ++ page_id)
    let c2 := invalidate_pattern c1 "query:*"
    ⟨Except.ok opt, c2,
      r.events ++ [Event.invalidateKey ("page:" ++ page_id), Event.invalidateLike "query:*"]⟩

/-! ### `NotionAPI.batch_update_pages` -/

/-- One element of the `updates` list: the page id together with the remote
behaviour of its update call (the `properties` payload only flows into
that call). -/
structure BatchItem where
  page_id : String
  call : Nat → Except PyExc JValue

/-- One element of the returned results list: `success`/`page_id` plus
either the update result or the caught exception. -/
structure BatchOutcome where
  success : Bool
  page_id : String
  result : Option (Option JValue)
  error : Option PyExc

/-- The `for i, update in enumerate(updates, 1)` loop: try the single-write
path, record success or the caught exception, sleep the inter-item delay
between (not after) items, and continue with the next item. -/
def batchGo (cache : Cache) : List BatchItem → List BatchOutcome × Cache × List Event
  | [] => ([], cache, [])
  | u :: rest =>
    let w := update_page cache u.page_id u.call
    let outcome : BatchOutcome :=
      match w.res with
      | Except.ok r => ⟨true, u.page_id, some r, none⟩
      | Except.error e => ⟨false, u.page_id, none, some e⟩
    let delayEv : List Event := if rest.isEmpty then [] else [Event.interItemDelay]
    let next := batchGo w.cache rest
    (outcome :: next.1, next.2.1, w.events ++ delayEv ++ next.2.2)

/-- NotionAPI.batch_update_pages on the modelled cache state. -/
def batch_update_pages (cache : Cache) (updates : List BatchItem) :
    List BatchOutcome × Cache × List Event :=
  batchGo cache updates

/-- The per-item outcome `batch_update_pages` records for one update,
determined by that item's own retrying call alone. -/
def itemOutcome (u : BatchItem) : BatchOutcome :=
  match (execute_with_retry u.call 3).outcome with
  | Except.ok opt => ⟨true, u.page_id, some opt, none⟩
  | Except.error e => ⟨false, u.page_id, none, some e⟩

/-- Whether an item's update call succeeds within its retry budget. -/
def itemSucceeds (u : BatchItem) : Bool :=
  match (execute_with_retry u.call 3).outcome with
  | Except.ok _ => true
  | Except.error _ => false

end NotionTool

/-! ## Shared helper lemmas -/

namespace NotionTool

/-- The retry loop's event trace contains no cache-invalidation events:
it only acquires the throttle, attempts calls, and sleeps. -/
theorem retryGo_no_invalidateLike (call : Nat → Except PyExc JValue) (p : String) :
    ∀ r a, Event.invalidateLike p ∉ (retryGo call a r).events := by
  intro r
  induction r with
  | zero => intro a; simp [retryGo]
  | succ n ih =>
    intro a
    cases hc : call a with
    | ok v => simp [retryGo, hc]
    | error e =>
      cases e with
      | apiResponseError code =>
        by_cases hcode : code = "rate_limited" ∧ 0 < n
        · simp [retryGo, hc, hcode, ih]
        · simp [retryGo, hc, hcode]
      | requestTimeoutError =>
        by_cases hn : 0 < n
        · simp [retryGo, hc, hn, ih]
        · simp [retryGo, hc, hn]
      | otherExc m => simp [retryGo, hc]

/-- The batch loop returns one outcome per input item, in input order, each
determined by that item's own retrying call — independently of the cache
state threaded through the loop. -/
theorem batchGo_results (c : Cache) (updates : List BatchItem) :
    (batchGo c updates).1 = updates.map itemOutcome := by
  induction updates generalizing c with
  | nil => rfl
  | cons u rest ih =>
    cases h : (execute_with_retry u.call 3).outcome with
    | ok opt => simp [batchGo, update_page, itemOutcome, h, ih]
    | error e => simp [batchGo, update_page, itemOutcome, h, ih]

/-- The batch loop performs the blanket query invalidation exactly once per
successful item and never for a failed item. -/
theorem batchGo_invalidations (c : Cache) (updates : List BatchItem) :
    (batchGo c updates).2.2.count (Event.invalidateLike "query:*")
      = (updates.filter itemSucceeds).length := by
  induction updates generalizing c with
  | nil => rfl
  | cons u rest ih =>
    have hz : (execute_with_retry u.call 3).events.count (Event.invalidateLike "query:*") = 0 :=
      List.count_eq_zero.mpr (retryGo_no_invalidateLike u.call "query:*" 3 0)
    cases h : (execute_with_retry u.call 3).outcome with
    | ok opt =>
      by_cases hr : rest = []
      · subst hr
        simp [batchGo, update_page, itemSucceeds, h, List.count_append, hz]
      · simp [batchGo, update_page, itemSucceeds, h, ih, hr, List.count_append, hz]
    | error e =>
      by_cases hr : rest = []
      · subst hr
        simp [batchGo, update_page, itemSucceeds, h, List.count_append, hz]
      · simp [batchGo, update_page, itemSucceeds, h, ih, hr, List.count_append, hz]

/-! ## Claim theorems -/

/-- C1 (the code contradicts the claim): after `set("k", v, ttl=10)` at time
0, the entry's `expires_at = 10` has passed at time 11, yet
`get("k", max_age=None)` at time 11 still returns `v`: `LocalCache.get`
never consults `expires_at` (its own docstring promises `None` if
expired), so the lazy-expiry invariant fails. -/
theorem c1_get_returns_expired_entry :
    (cacheSet [] 0 "k" (JValue.str "v") (some 10)).lookup "k"
        = some ⟨JValue.str "v", 0, some 10⟩
    ∧ ((10 : Int) < 11)
    ∧ cacheGet (cacheSet [] 0 "k" (JValue.str "v") (some 10)) 11 "k" none
        = some (JValue.str "v") :=
  ⟨rfl, by decide, rfl⟩

/-- The cache state after `get_page("42")` has fetched and cached the
pre-write page value. -/
def preWriteCache : Cache :=
  match get_page [] 0 "42" true (fun _ => Except.ok (JValue.str "old")) with
  | Except.ok r => r.cache
  | Except.error _ => []

/-- The cache state after a successful `update_page("42", ...)` on
`preWriteCache`. -/
def postWriteCache : Cache :=
  (update_page preWriteCache "42" (fun _ => Except.ok (JValue.str "new"))).cache

set_option maxRecDepth 100000 in
/-- C2 (the code contradicts the claim): `get_page` stores the page under
the MD5 digest of `"page:42"`, but `update_page` invalidates the literal
key `"page:42"` and the SQL LIKE pattern `"query:*"` (which, containing
no `%` wildcard, matches only that literal string). A successful write
therefore removes nothing: the single-item entry survives, and the
immediately following fetch serves the pre-write value from cache without
touching the remote. -/
theorem c2_write_leaves_stale_cache :
    (update_page preWriteCache "42" (fun _ => Except.ok (JValue.str "new"))).res
        = Except.ok (some (JValue.str "new"))
    ∧ postWriteCache = preWriteCache
    ∧ cacheGet postWriteCache 0 (generate_key [some "page", some "42"]) none
        = some (JValue.str "old")
    ∧ get_page postWriteCache 0 "42" true (fun _ => Except.ok (JValue.str "new"))
        = Except.ok ⟨JValue.str "old", postWriteCache,
            [Event.cacheLookup (generate_key [some "page", some "42"]),
             Event.cacheHit (generate_key [some "page", some "42"])]⟩ :=
  ⟨rfl, rfl, rfl, rfl⟩

/-- C3: a call that always fails with `rate_limited` is attempted exactly 3
times under `max_retries = 3`, with the throttle re-acquired before every
attempt, a sleep of `2 ^ i` seconds after failed attempt `i` (1s then
2s), and the `rate_limited` error re-raised after the third attempt; a
call that always times out instead sleeps a flat 1 second between
attempts and re-raises the timeout. -/
theorem c3_retry_exhaustion_and_backoff
    (callR callT : Nat → Except PyExc JValue)
    (hR : ∀ i, callR i = Except.error (PyExc.apiResponseError "rate_limited"))
    (hT : ∀ i, callT i = Except.error PyExc.requestTimeoutError) :
    execute_with_retry callR 3
      = ⟨[Event.acquireThrottle, Event.callAttempt 0, Event.sleepFor 1,
          Event.acquireThrottle, Event.callAttempt 1, Event.sleepFor 2,
          Event.acquireThrottle, Event.callAttempt 2],
         Except.error (PyExc.apiResponseError "rate_limited")⟩
    ∧ execute_with_retry callT 3
      = ⟨[Event.acquireThrottle, Event.callAttempt 0, Event.sleepFor 1,
          Event.acquireThrottle, Event.callAttempt 1, Event.sleepFor 1,
          Event.acquireThrottle, Event.callAttempt 2],
         Except.error PyExc.requestTimeoutError⟩ := by
  constructor
  · simp [execute_with_retry, retryGo, hR]
  · simp [execute_with_retry, retryGo, hT]

/-- A remote call that fails with `rate_limited` on every attempt. -/
def alwaysRateLimited : Nat → Except PyExc JValue :=
  fun _ => Except.error (PyExc.apiResponseError "rate_limited")

/-- A remote call that times out on every attempt. -/
def alwaysTimeout : Nat → Except PyExc JValue :=
  fun _ => Except.error PyExc.requestTimeoutError

/-- Witness for C3 at the concrete always-failing calls. -/
theorem c3_retry_exhaustion_and_backoff_witness :
    execute_with_retry alwaysRateLimited 3
      = ⟨[Event.acquireThrottle, Event.callAttempt 0, Event.sleepFor 1,
          Event.acquireThrottle, Event.callAttempt 1, Event.sleepFor 2,
          Event.acquireThrottle, Event.callAttempt 2],
         Except.error (PyExc.apiResponseError "rate_limited")⟩
    ∧ execute_with_retry alwaysTimeout 3
      = ⟨[Event.acquireThrottle, Event.callAttempt 0, Event.sleepFor 1,
          Event.acquireThrottle, Event.callAttempt 1, Event.sleepFor 1,
          Event.acquireThrottle, Event.callAttempt 2],
         Except.error PyExc.requestTimeoutError⟩ :=
  c3_retry_exhaustion_and_backoff alwaysRateLimited alwaysTimeout
    (fun _ => rfl) (fun _ => rfl)

/-- A query key for database `db1` with a filter and no sorts. -/
def qKeyA : String := generate_key [some "query", some "db1", some "filterA", none]

/-- A query key for database `db1` with no filter and no sorts. -/
def qKeyB : String := generate_key [some "query", some "db1", none, none]

/-- The single-item key for page `42`. -/
def pKeyC : String := generate_key [some "page", some "42"]

/-- A cache holding two query results and one single-item entry under the
keys the façade actually computes. -/
def mixedCache : Cache :=
  [(qKeyA, ⟨JValue.str "x", 0, none⟩),
   (qKeyB, ⟨JValue.str "y", 0, none⟩),
   (pKeyC, ⟨JValue.str "z", 0, none⟩)]

set_option maxRecDepth 100000 in
/-- C4 (the code contradicts the claim's second half): identical identity
tuples do map to the same key (`generate_key` is a function of its
arguments), but the keys are MD5 hex digests, so query keys do not begin
with any `"query"` prefix, and the façade's blanket invalidation
`invalidate_pattern "query:*"` removes no entry at all: every cached
query result survives it. -/
theorem c4_no_query_namespace :
    invalidate_pattern mixedCache "query:*" = mixedCache
    ∧ cacheGet (invalidate_pattern mixedCache "query:*") 0 qKeyA none = some (JValue.str "x")
    ∧ cacheGet (invalidate_pattern mixedCache "query:*") 0 qKeyB none = some (JValue.str "y")
    ∧ strBegins "query" qKeyA = false
    ∧ strBegins "query" qKeyB = false :=
  ⟨rfl, rfl, rfl, rfl, rfl⟩

set_option maxRecDepth 10000 in
/-- C5 counterexample: the claim's freshness test `now - createdAt ≤ maxAge`
(inclusive) says an entry created at time 0 is still fresh at time 5 for
`maxAge = 5`, but the code's `created_at > now - max_age` is strict: the
read at exactly `now - createdAt = maxAge` already misses. -/
theorem c5_inclusive_bound_fails :
    ((5 : Int) - 0 ≤ 5)
    ∧ cacheGet (cacheSet [] 0 "k" (JValue.str "v") none) 5 "k" (some 5) = none :=
  ⟨by decide, rfl⟩

/-- C5 as amended: for any key, value and positive `maxAge`, a `get` on an
entry stored with `ttl=None` returns the value exactly when
`now - createdAt < maxAge` (strict), evaluated against the entry's
creation time; in particular the immediate read returns the value and the
read 6 units later with `maxAge = 5` misses. -/
theorem c5_read_freshness_strict (key : String) (v : JValue) (t0 t m : Int) (hm : 0 < m) :
    cacheGet (cacheSet [] t0 key v none) t key (some m)
      = if t - t0 < m then some v else none := by
  have hm' : m ≠ 0 := ne_of_gt hm
  simp [cacheGet, cacheSet, eraseKey, pyTruthyInt, hm', List.lookup]
  split_ifs with h1 h2 <;> first | rfl | (exfalso; omega)

/-- Witness for C5 as amended: immediate hit at age 0 and miss at age 6 for
`maxAge = 5`. -/
theorem c5_read_freshness_strict_witness :
    ((0 : Int) < 5)
    ∧ (cacheGet (cacheSet [] 0 "k" (JValue.str "v") none) 0 "k" (some 5)
        = if (0 : Int) - 0 < 5 then some (JValue.str "v") else none)
    ∧ (cacheGet (cacheSet [] 0 "k" (JValue.str "v") none) 6 "k" (some 5)
        = if (6 : Int) - 0 < 5 then some (JValue.str "v") else none) :=
  ⟨by decide,
   c5_read_freshness_strict "k" (JValue.str "v") 0 0 5 (by decide),
   c5_read_freshness_strict "k" (JValue.str "v") 0 6 5 (by decide)⟩

/-- C6: a call whose first attempt fails with a fatal (non-retryable) error
— an `APIResponseError` with any code other than `rate_limited`, or any
exception the loop's handlers do not catch — is attempted exactly once,
and the error propagates immediately for every `max_retries ≥ 1`. -/
theorem c6_fatal_not_retried (call : Nat → Except PyExc JValue) (e : PyExc)
    (max_retries : Nat) (h0 : call 0 = Except.error e) (hf : fatalError e = true)
    (hm : 1 ≤ max_retries) :
    execute_with_retry call max_retries
      = ⟨[Event.acquireThrottle, Event.callAttempt 0], Except.error e⟩ := by
  cases max_retries with
  | zero => omega
  | succ n =>
    cases e with
    | apiResponseError code =>
      have hc : code ≠ "rate_limited" := by simpa [fatalError] using hf
      simp [execute_with_retry, retryGo, h0, hc]
    | requestTimeoutError => simp [fatalError] at hf
    | otherExc m => simp [execute_with_retry, retryGo, h0]

/-- A remote call that always fails with a non-retryable validation error. -/
def alwaysFatal : Nat → Except PyExc JValue :=
  fun _ => Except.error (PyExc.apiResponseError "validation_error")

/-- Witness for C6 at a concrete fatal call with `max_retries = 3`. -/
theorem c6_fatal_not_retried_witness :
    fatalError (PyExc.apiResponseError "validation_error") = true
    ∧ execute_with_retry alwaysFatal 3
        = ⟨[Event.acquireThrottle, Event.callAttempt 0],
           Except.error (PyExc.apiResponseError "validation_error")⟩ :=
  ⟨rfl, c6_fatal_not_retried alwaysFatal (PyExc.apiResponseError "validation_error") 3
    rfl rfl (by decide)⟩

/-- C7: `batch_update_pages` yields exactly one outcome per input item, in
input order, each recording that item's own success or failure (so one
item's fatal error neither stops later items nor disappears from the
result list), and the post-write cache invalidation runs exactly once per
successful item — never for a failed one. -/
theorem c7_batch_isolates_failures (c : Cache) (updates : List BatchItem) :
    (batch_update_pages c updates).1 = updates.map itemOutcome
    ∧ (batch_update_pages c updates).1.length = updates.length
    ∧ (batch_update_pages c updates).2.2.count (Event.invalidateLike "query:*")
        = (updates.filter itemSucceeds).length := by
  refine ⟨batchGo_results c updates, ?_, batchGo_invalidations c updates⟩
  simp [batch_update_pages, batchGo_results c updates]

/-- The environment of the C8 scenario: caching globally disabled. -/
def c8Env : String → Option String := fun name =>
  if name = "NOTION_TOKEN" then some "secret-token"
  else if name = "DATABASE_ID" then some "db"
  else if name = "CACHE_ENABLED" then some "false"
  else none

/-- The configuration parsed from `c8Env`. -/
def c8Config : Config :=
  match mkConfig c8Env with
  | Except.ok cfg => cfg
  | Except.error _ => ⟨"", "", true, ""⟩

/-- A cache already holding a fresh query result for the default database. -/
def c8Cache : Cache :=
  [(generate_key [some "query", some "db", none, none],
    ⟨JValue.arr [JValue.str "cached"], 0, none⟩)]

set_option maxRecDepth 100000 in
/-- C8 (the code contradicts the claim): with `CACHE_ENABLED=false` the
parsed configuration has `cache_enabled = false`, yet `query_database`
(whose only gate is its own `use_cache` parameter, default `True`; it
never reads `config.cache_enabled`) still performs the cache lookup and
returns the cached value, skipping the remote fetch entirely. -/
theorem c8_cache_switch_ignored :
    mkConfig c8Env = Except.ok c8Config
    ∧ c8Config.cache_enabled = false
    ∧ query_database c8Cache 0 c8Config none none none true 300
          [⟨[JValue.str "remote"], false, none⟩]
        = ⟨JValue.arr [JValue.str "cached"], c8Cache,
           [Event.cacheLookup (generate_key [some "query", some "db", none, none]),
            Event.cacheHit (generate_key [some "query", some "db", none, none])]⟩ :=
  ⟨rfl, rfl, rfl⟩

/-- C9: dropping `None` arguments before joining makes two distinct call
identity tuples collide: for every database id and filter rendering `f`,
the tuple with filter `f` and no sorts and the tuple with no filter and
sorts `f` hash to the same cache key, so the two different queries share
one cache entry. -/
theorem c9_none_dropping_collision (db f : String) :
    ([some "query", some db, some f, none]
        ≠ [some "query", some db, none, (some f : Option String)])
    ∧ generate_key [some "query", some db, some f, none]
        = generate_key [some "query", some db, none, some f] :=
  ⟨by simp, rfl⟩

/-- C10: a cached value that decodes to a falsy payload — the empty list a
query stored, or a falsy page value — fails the `if cached:` truthiness
test, so both `query_database` and `get_page` treat the lookup as a miss:
they fetch from the remote, overwrite the entry, and return the fresh
remote result, never the empty cached one. -/
theorem c10_falsy_cache_is_miss (st : Cache) (now : Int) (cfg : Config) (db pid : String)
    (fr sr : Option String) (ttl : Int) (pages : List Page) (v w newv : JValue)
    (hdb : db ≠ "")
    (hq : cacheGet st now (generate_key [some "query", some db, fr, sr]) (some ttl) = some v)
    (hv : v.truthy = false)
    (hp : cacheGet st now (generate_key [some "page", some pid]) none = some w)
    (hw : w.truthy = false) :
    query_database st now cfg (some db) fr sr true ttl pages
      = ⟨JValue.arr (paginate pages).1,
         cacheSet st now (generate_key [some "query", some db, fr, sr])
           (JValue.arr (paginate pages).1) none,
         Event.cacheLookup (generate_key [some "query", some db, fr, sr])
           :: (List.range (paginate pages).2).map Event.remotePage
           ++ [Event.cacheStore (generate_key [some "query", some db, fr, sr])]⟩
    ∧ get_page st now pid true (fun _ => Except.ok newv)
      = Except.ok ⟨newv, cacheSet st now (generate_key [some "page", some pid]) newv none,
          Event.cacheLookup (generate_key [some "page", some pid])
            :: [Event.acquireThrottle, Event.callAttempt 0]
            ++ [Event.cacheStore (generate_key [some "page", some pid])]⟩ := by
  constructor
  · simp [query_database, pyTruthyStr, hdb, hq, truthyOpt, hv]
  · simp [get_page, hp, truthyOpt, hw, execute_with_retry, retryGo, pyOptVal]

/-- A cache holding an empty query result and a falsy page value under the
keys the façade computes for database `db` and page `42`. -/
def falsyCache : Cache :=
  [(generate_key [some "query", some "db", none, none], ⟨JValue.arr [], 0, none⟩),
   (generate_key [some "page", some "42"], ⟨JValue.obj [], 0, none⟩)]

set_option maxRecDepth 100000 in
/-- Witness for C10 on `falsyCache`: a fresh empty-list query entry and a
falsy page entry are both refetched. -/
theorem c10_falsy_cache_is_miss_witness :
    query_database falsyCache 0 ⟨"tok", "other", true, ""⟩ (some "db") none none true 300
        [⟨[JValue.str "r"], false, none⟩]
      = ⟨JValue.arr [JValue.str "r"],
         cacheSet falsyCache 0 (generate_key [some "query", some "db", none, none])
           (JValue.arr [JValue.str "r"]) none,
         Event.cacheLookup (generate_key [some "query", some "db", none, none])
           :: (List.range 1).map Event.remotePage
           ++ [Event.cacheStore (generate_key [some "query", some "db", none, none])]⟩
    ∧ get_page falsyCache 0 "42" true (fun _ => Except.ok (JValue.str "fresh"))
      = Except.ok ⟨JValue.str "fresh",
          cacheSet falsyCache 0 (generate_key [some "page", some "42"]) (JValue.str "fresh") none,
          Event.cacheLookup (generate_key [some "page", some "42"])
            :: [Event.acquireThrottle, Event.callAttempt 0]
            ++ [Event.cacheStore (generate_key [some "page", some "42"])]⟩ :=
  c10_falsy_cache_is_miss falsyCache 0 ⟨"tok", "other", true, ""⟩ "db" "42" none none 300
    [⟨[JValue.str "r"], false, none⟩] (JValue.arr []) (JValue.obj []) (JValue.str "fresh")
    (by decide) (by rfl) rfl (by rfl) rfl

end NotionTool
